import Mathlib

/-!
Verification of the document classification / extraction / fusion core of the
fillform repository against its natural-language specification.

The Python source is shallowly embedded: enums become inductives, pure methods
become Lean functions over explicit state, Python floats used as scoring
weights become exact rationals (ℚ), and Python exceptions become `Except`
values.  Dynamic-attribute behaviour (dataclass keyword construction,
attribute lookup on objects) is modelled by explicit field-name lists taken
verbatim from the class definitions, because several claims hinge on
mismatches between the field names a class defines and the keyword arguments
its callers pass.
-/

namespace Fillform

/-- The closed enum of document types, from
`backend/extraction/core/document.py` (`class DocumentType`), in declaration
order. -/
inductive DocumentType where
  | acord_126
  | acord_125
  | acord_130
  | acord_140
  | loss_run
  | sov
  | financial_statement
  | supplemental
  | generic
  | unknown
deriving DecidableEq, Repr

/-- Python exception classes relevant to the embedded code. -/
inductive PyErr where
  | typeError
  | attributeError
deriving DecidableEq, Repr

/-- Python truthiness of an optional string (`None` and `""` are falsy). -/
def strTruthy : Option String → Bool
  | none => false
  | some s => s ≠ ""

/-- Python `try ... except Exception: handler` around a computation. -/
def pyTry {α : Type} (body : Except PyErr α) (handler : PyErr → Except PyErr α) :
    Except PyErr α :=
  match body with
  | .ok a => .ok a
  | .error e => handler e

/-! ## The `ExtractionResult` dataclass and its construction sites

`backend/extraction/models/extraction_result.py` declares the only
`ExtractionResult` class of the repository as a `@dataclass`.  A Python
dataclass accepts a keyword argument only if it names a declared field, and a
keyword-only call must supply every field that has no default; otherwise the
generated `__init__` raises `TypeError`.  We record the declared fields (in
declaration order) together with whether each has a default value. -/

/-- Fields of the `ExtractionResult` dataclass, paired with whether the field
has a default value (`json` is the only field without one). -/
def extractionResultDataclassFields : List (String × Bool) :=
  [("json", false), ("confidence", true), ("warnings", true),
   ("metadata", true), ("error", true), ("field_confidence", true)]

/-- Whether a keyword-only constructor call with keyword set `kwargs` is
accepted by a dataclass declaring `fields`: every keyword must name a declared
field and every field without a default must be supplied. -/
def dataclassCallAccepts (fields : List (String × Bool)) (kwargs : List String) : Bool :=
  kwargs.all (fun k => (fields.map Prod.fst).contains k) &&
    fields.all (fun f => f.2 || kwargs.contains f.1)

/-- Constructing an `ExtractionResult` with the given keyword set: returns the
keyword set on success, raises `TypeError` on a signature mismatch. -/
def mkExtractionResult (kwargs : List String) : Except PyErr (List String) :=
  if dataclassCallAccepts extractionResultDataclassFields kwargs then .ok kwargs
  else .error .typeError

/-- Keyword set of the result constructed by `ExtractorFactory.extract`'s
exception handler (`factory.py` lines 89–93):
`ExtractionResult(success=False, data={}, errors=[...])`. -/
def factoryFailureKwargs : List String := ["success", "data", "errors"]

/-- Keyword set of `GenericExtractor.extract`'s success result
(`generic_extractor.py` lines 60–65):
`ExtractionResult(success=True, data=..., warnings=..., confidence=...)`. -/
def genericSuccessKwargs : List String := ["success", "data", "warnings", "confidence"]

/-- Keyword set of `GenericExtractor.extract`'s failure result
(`generic_extractor.py` lines 68–72). -/
def genericFailureKwargs : List String := ["success", "data", "errors"]

/-- Keyword set of `FusionStrategy.fuse`'s success result
(`fusion_strategy.py` lines 148–153). -/
def fusionSuccessKwargs : List String := ["success", "data", "warnings", "confidence"]

/-- Keyword set of `FusionStrategy.fuse`'s failure results
(`fusion_strategy.py` lines 119–123 and 156–160). -/
def fusionFailureKwargs : List String := ["success", "data", "errors"]

/-- Keyword set of `ExtractionPipeline.process`'s exception-handler result
(`pipeline.py` lines 89–93). -/
def pipelineFailureKwargs : List String := ["success", "data", "errors"]

/-! ## The `Document` object -/

/-- Table data attached to a `Document` (`class TableData`). -/
structure TableData where
  headers : List String
  rows : List (List String)
deriving DecidableEq, Repr

/-- The attribute names an `ImageData` instance owns, from the `@dataclass`
declaration in `core/document.py` (lines 56–63).  `GenericExtractor`
dereferences `image.page`, which is not among them. -/
def imageDataAttrs : List String :=
  ["data", "format", "width", "height", "metadata"]

/-- The attribute names a `Document` instance owns after `Document.__init__`
(`core/document.py` lines 141–167).  `GenericExtractor._extract_metadata`
dereferences `document.file_size`, which is not among them. -/
def documentAttrs : List String :=
  ["id", "file_path", "file_name", "mime_type", "file_extension",
   "document_type", "status", "confidence", "raw_text", "tables", "images",
   "metadata", "structure", "created_at", "updated_at", "errors", "warnings"]

/-- Shallow embedding of a `Document`'s value content, restricted to the
attributes the embedded methods read.  `images` only tracks how many images
are attached (their byte content is never inspected by the embedded code). -/
structure Document where
  file_path : String
  file_name : String
  mime_type : Option String
  file_extension : Option String
  document_type : DocumentType
  raw_text : String
  tables : List TableData
  imageCount : Nat
deriving DecidableEq, Repr

/-- Attribute lookup on a `Document` object: succeeds exactly on the names set
by `Document.__init__`, otherwise raises `AttributeError`. -/
def documentGetattr (name : String) : Except PyErr Unit :=
  if documentAttrs.contains name then .ok () else .error .attributeError

/-- Attribute lookup on an `ImageData` object. -/
def imageGetattr (name : String) : Except PyErr Unit :=
  if imageDataAttrs.contains name then .ok () else .error .attributeError

/-! ## GenericExtractor (`extractors/generic_extractor.py`)

`GenericExtractor.extract` builds a data dictionary by calling, in order,
`_extract_content`, `_extract_tables`, `_extract_images`,
`_extract_metadata` and `_calculate_statistics`, then constructs the success
`ExtractionResult`; an `except Exception` handler constructs a failure
`ExtractionResult` instead.  We embed the attribute dereferences each helper
performs (only failures matter for control flow) plus the two constructor
calls. -/

/-- `_extract_images` (lines 141–157): for each attached image it reads
`image.page`, `image.width`, `image.height`, `image.format`,
`image.metadata`. -/
def genericExtractImages (d : Document) : Except PyErr Unit :=
  if d.imageCount = 0 then .ok ()
  else do
    imageGetattr "page"
    imageGetattr "width"
    imageGetattr "height"
    imageGetattr "format"
    imageGetattr "metadata"

/-- `_extract_metadata` (lines 159–181): reads `document.file_name`,
`document.file_extension`, `document.file_size`, `document.mime_type`,
`document.structure`, `document.document_type`, `document.confidence`,
`document.metadata` in the order of the dictionary literal. -/
def genericExtractMetadata : Except PyErr Unit := do
  documentGetattr "file_name"
  documentGetattr "file_extension"
  documentGetattr "file_size"
  documentGetattr "mime_type"
  documentGetattr "structure"
  documentGetattr "document_type"
  documentGetattr "confidence"
  documentGetattr "metadata"

/-- The `try` body of `GenericExtractor.extract` (lines 43–65). -/
def genericExtractBody (d : Document) : Except PyErr (List String) := do
  documentGetattr "raw_text"
  documentGetattr "tables"
  genericExtractImages d
  genericExtractMetadata
  documentGetattr "structure"
  mkExtractionResult genericSuccessKwargs

/-- `GenericExtractor.extract` (lines 33–72): the `try` body wrapped in an
`except Exception` handler that itself constructs an `ExtractionResult` with
keywords `success`, `data`, `errors`. -/
def genericExtract (d : Document) : Except PyErr (List String) :=
  pyTry (genericExtractBody d) (fun _ => mkExtractionResult genericFailureKwargs)

/-! ## ExtractorRegistry (`extractors/registry.py`) -/

/-- The extractor classes registered by `_register_default_extractors`. -/
inductive ExtractorKind where
  | acord126
  | acord125
  | acord130
  | acord140
  | lossRun
  | sov
  | financialStatement
  | supplemental
  | generic
deriving DecidableEq, Repr

/-- `ExtractorRegistry._register_default_extractors` (lines 26–81): the map
from document type to registered extractor class; `GENERIC` and `UNKNOWN`
both map to `GenericExtractor`. -/
def extractorRegistryGet : DocumentType → Option ExtractorKind
  | .acord_126 => some .acord126
  | .loss_run => some .lossRun
  | .sov => some .sov
  | .financial_statement => some .financialStatement
  | .supplemental => some .supplemental
  | .generic => some .generic
  | .unknown => some .generic
  | .acord_125 => some .acord125
  | .acord_130 => some .acord130
  | .acord_140 => some .acord140

/-- `os.path.exists(document)` where `document` is a `Document` object:
`os.stat` rejects a non-path argument with `TypeError`, and
`genericpath.exists` catches only `OSError` and `ValueError`, so the
`TypeError` propagates. -/
def osPathExistsOnDocument : Except PyErr Bool := .error .typeError

/-- `can_extract` of each registered extractor, applied to a `Document` as
`ExtractorRegistry.get_extractor_for_document` does.
`Acord126Extractor.can_extract` (acord_126_extractor.py lines 48–73) expects a
path string and begins with `os.path.exists(pdf_path)`, so on a `Document`
argument it raises; the remaining extractors take the document and test pure
conditions on its attributes. -/
def canExtract : ExtractorKind → Document → Except PyErr Bool
  | .acord126, _ =>
    match osPathExistsOnDocument with
    | .error e => .error e
    | .ok b => .ok b
  | .acord125, d => .ok (d.document_type == .acord_125)
  | .acord130, d => .ok (d.document_type == .acord_130)
  | .acord140, d => .ok (d.document_type == .acord_140)
  | .lossRun, d =>
    .ok ((d.document_type == .loss_run) &&
      (!d.tables.isEmpty || d.raw_text != ""))
  | .sov, d =>
    .ok ((d.document_type == .sov) &&
      (!d.tables.isEmpty ||
        (match d.file_extension with
         | some e => [".xlsx", ".xls", ".csv"].contains e
         | none => false)))
  | .financialStatement, d =>
    .ok ((d.document_type == .financial_statement) &&
      (!d.tables.isEmpty ||
        (match d.file_extension with
         | some e => [".xlsx", ".xls", ".csv"].contains e
         | none => false)))
  | .supplemental, d => .ok (d.document_type == .supplemental)
  | .generic, _ => .ok true

/-- `ExtractorRegistry.get_extractor_for_document` (lines 120–138): look up
the document's type; if an extractor is registered and its
`can_extract(document)` is true, return it, otherwise return a fresh
`GenericExtractor`.  An exception from `can_extract` propagates. -/
def getExtractorForDocument (d : Document) : Except PyErr ExtractorKind :=
  match extractorRegistryGet d.document_type with
  | none => .ok .generic
  | some e => do
    let b ← canExtract e d
    if b then pure e else pure .generic

/-! ## KeywordClassifier (`classifiers/keyword_classifier.py`)

The classifier's behaviour depends on the document text only through which of
the fixed regex patterns `re.search` finds in the lowered `raw_text`.  We
therefore abstract a document text as a predicate `m : String → Bool` on
pattern source strings ("pattern p matches the text"), and carry over the
pattern tiers verbatim. -/

/-- The three keyword tiers (`required`, `strong`, `weak`) of
`KeywordClassifier.KEYWORD_PATTERNS` for one document type. -/
structure KeywordTiers where
  required : List String
  strong : List String
  weak : List String
deriving Repr

/-- `KEYWORD_PATTERNS` (lines 24–136), verbatim; types that do not appear in
the table get three empty tiers (as `patterns.get(doc_type, {})` yields). -/
def keywordPatterns : DocumentType → KeywordTiers
  | .acord_126 =>
    { required := ["acord\\s*126", "commercial\\s+general\\s+liability"]
      strong := ["named\\s+insured", "general\\s+aggregate",
        "products\\s+completed\\s+operations", "each\\s+occurrence",
        "personal\\s+advertising\\s+injury"]
      weak := ["premises\\s+operations", "medical\\s+expense",
        "fire\\s+damage", "policy\\s+period"] }
  | .acord_125 =>
    { required := ["acord\\s*125", "commercial\\s+insurance"]
      strong := ["general\\s+liability", "automobile\\s+liability",
        "umbrella\\s+liability", "workers\\s+compensation"]
      weak := ["certificate\\s+holder", "policy\\s+number"] }
  | .acord_130 =>
    { required := ["acord\\s*130", "workers\\s+compensation"]
      strong := ["experience\\s+modification", "classification\\s+code",
        "payroll"]
      weak := [] }
  | .acord_140 =>
    { required := ["acord\\s*140", "property\\s+section"]
      strong := ["building\\s+value", "contents\\s+value",
        "business\\s+income"]
      weak := [] }
  | .loss_run =>
    { required := ["(loss\\s+run|claim\\s+history|loss\\s+history)"]
      strong := ["date\\s+of\\s+loss", "claim\\s+(number|amount|status)",
        "(paid|incurred|reserve)", "claimant", "description\\s+of\\s+loss"]
      weak := ["policy\\s+number", "policy\\s+period",
        "total\\s+(paid|incurred)"] }
  | .sov =>
    { required := ["(schedule\\s+of\\s+values|statement\\s+of\\s+values|sov)"]
      strong := ["(building|property)\\s+value", "contents\\s+value",
        "(location|address)", "construction\\s+type", "occupancy",
        "total\\s+insured\\s+value"]
      weak := ["year\\s+built", "square\\s+feet", "number\\s+of\\s+stories"] }
  | .financial_statement =>
    { required :=
        ["(balance\\s+sheet|income\\s+statement|financial\\s+statement)"]
      strong := ["(assets|liabilities|equity)",
        "(revenue|expenses|net\\s+income)", "total\\s+assets",
        "total\\s+liabilities", "shareholders\\s+equity"]
      weak := ["fiscal\\s+year", "cash\\s+flow", "retained\\s+earnings"] }
  | _ => { required := [], strong := [], weak := [] }

/-- The document types that own an entry in `KEYWORD_PATTERNS`, in the
dictionary's insertion order (the iteration order of `classify`). -/
def keywordPatternTypes : List DocumentType :=
  [.acord_126, .acord_125, .acord_130, .acord_140, .loss_run, .sov,
   .financial_statement]

/-- `CONFIDENCE_WEIGHTS` (lines 139–143), as exact rationals:
required 0.4, strong 0.1, weak 0.03. -/
def requiredWeight : ℚ := 2 / 5

/-- Strong-tier weight, 0.1. -/
def strongWeight : ℚ := 1 / 10

/-- Weak-tier weight, 0.03. -/
def weakWeight : ℚ := 3 / 100

/-- Number of patterns in `ps` that match under `m`. -/
def hitCount (m : String → Bool) (ps : List String) : ℕ :=
  (ps.filter m).length

/-- `KeywordClassifier._score_document_type` (lines 219–252): zero when the
type has required patterns and none matches, otherwise the weighted sum of
hits in the three tiers. -/
def scoreDocumentType (m : String → Bool) (dt : DocumentType) : ℚ :=
  let tiers := keywordPatterns dt
  let requiredFound := hitCount m tiers.required
  if tiers.required ≠ [] ∧ requiredFound = 0 then 0
  else requiredFound * requiredWeight + hitCount m tiers.strong * strongWeight
    + hitCount m tiers.weak * weakWeight

/-- Python `max(iterable, key=...)` on a nonempty list: left fold that
replaces the current best only on a strictly larger key, so the first
occurrence of the maximal key wins. -/
def pyMaxBy {α : Type} (key : α → ℚ) (b : α) : List α → α
  | [] => b
  | x :: rest => pyMaxBy key (if key x > key b then x else b) rest

/-- The `scores` dictionary built by `KeywordClassifier.classify`
(lines 170–174): each table type with a positive score, in table order. -/
def keywordScores (m : String → Bool) : List (DocumentType × ℚ) :=
  keywordPatternTypes.filterMap fun dt =>
    let s := scoreDocumentType m dt
    if s > 0 then some (dt, s) else none

/-- `KeywordClassifier.classify` (lines 154–181): `(UNKNOWN, 0.0)` when the
document has no text or no type scores positively; otherwise the
highest-scoring type (first wins on ties, in table order), with the score
clamped to at most 1. -/
def keywordClassify (d : Document) (m : String → Bool) : DocumentType × ℚ :=
  if d.raw_text = "" then (.unknown, 0)
  else
    match keywordScores m with
    | [] => (.unknown, 0)
    | s :: rest =>
      let best := pyMaxBy (fun p => p.2) s rest
      (best.1, min 1 best.2)

/-! ## CompositeClassifier (`interfaces/classifier.py`, lines 181–317)

For one fixed document, a configured classifier contributes to
`CompositeClassifier.classify` only through `can_classify(document)` and the
outcome of `classify(document)` — a `(type, confidence)` pair, or an exception
that the composite swallows.  `ClassifierRun` records that per-document
behaviour; `none` as outcome models a raised exception. -/

/-- Per-document behaviour of one configured classifier. -/
structure ClassifierRun where
  can : Bool
  outcome : Option (DocumentType × ℚ)
deriving Repr

/-- The `(doc_type, confidence)` votes collected by the loop in
`CompositeClassifier.classify` (lines 213–223): classifiers whose
`can_classify` is false, or that raise, contribute nothing. -/
def eligibleResults (runs : List ClassifierRun) : List (DocumentType × ℚ) :=
  runs.filterMap fun r => if r.can then r.outcome else none

/-- `CompositeClassifier.classify` with the `highest_confidence` strategy
(lines 213–241): `(UNKNOWN, 0.0)` when no classifier could run, otherwise
`max(results, key=confidence)` — the first vote with maximal confidence. -/
def compositeClassifyHC (runs : List ClassifierRun) : DocumentType × ℚ :=
  match eligibleResults runs with
  | [] => (.unknown, 0)
  | r :: rest => pyMaxBy (fun p => p.2) r rest

/-! ## MimeClassifier (`classifiers/mime_classifier.py`) -/

/-- `MIME_TYPE_HINTS` (lines 31–68), verbatim. -/
def mimeTypeHints : List (String × List DocumentType) :=
  [("application/pdf",
     [.acord_126, .acord_125, .acord_130, .acord_140, .loss_run,
      .financial_statement, .generic]),
   ("application/vnd.openxmlformats-officedocument.spreadsheetml.sheet",
     [.sov, .financial_statement, .loss_run]),
   ("application/vnd.ms-excel", [.sov, .financial_statement, .loss_run]),
   ("text/csv", [.sov, .loss_run]),
   ("image/jpeg", [.supplemental]),
   ("image/png", [.supplemental]),
   ("image/tiff", [.supplemental]),
   ("application/vnd.openxmlformats-officedocument.wordprocessingml.document",
     [.supplemental, .generic])]

/-- `EXTENSION_HINTS` (lines 71–88), verbatim. -/
def extensionHints : List (String × List DocumentType) :=
  [(".pdf", [.acord_126, .loss_run, .financial_statement, .generic]),
   (".xlsx", [.sov, .financial_statement]),
   (".xls", [.sov, .financial_statement]),
   (".csv", [.sov, .loss_run]),
   (".jpg", [.supplemental]),
   (".jpeg", [.supplemental]),
   (".png", [.supplemental]),
   (".tiff", [.supplemental]),
   (".tif", [.supplemental]),
   (".docx", [.supplemental, .generic]),
   (".doc", [.supplemental, .generic])]

/-- Order-preserving first-occurrence deduplication, as the `seen` loop at
the end of `MimeClassifier._get_possible_types` (lines 237–243). -/
def dedupFirst {α : Type} [DecidableEq α] (seen : List α) : List α → List α
  | [] => []
  | x :: rest =>
    if seen.contains x then dedupFirst seen rest
    else x :: dedupFirst (x :: seen) rest

/-- `MimeClassifier._get_possible_types` (lines 214–244): candidates from the
MIME hint table when the document's MIME type is truthy and known, else from
the extension hint table (lower-cased extension), deduplicated preserving
order. -/
def getPossibleTypes (d : Document) : List DocumentType :=
  let fromMime :=
    match d.mime_type with
    | some mt => if mt ≠ "" then ((mimeTypeHints.lookup mt).getD []) else []
    | none => []
  let possible :=
    if fromMime ≠ [] then fromMime
    else
      match d.file_extension with
      | some ext =>
        if ext ≠ "" then ((extensionHints.lookup ext.toLower).getD []) else []
      | none => []
  dedupFirst [] possible

/-- The default `confidence_multiplier` of `MimeClassifier.__init__`, 0.3. -/
def mimeConfidenceMultiplier : ℚ := 3 / 10

/-- `MimeClassifier.classify` (lines 100–132): `(UNKNOWN, 0.0)` when no
candidate type exists, otherwise the first candidate with confidence
`0.4 × multiplier` for a single candidate and `0.2 × multiplier` for
several. -/
def mimeClassify (d : Document) : DocumentType × ℚ :=
  match getPossibleTypes d with
  | [] => (.unknown, 0)
  | t :: rest =>
    if rest.isEmpty then (t, (2 / 5) * mimeConfidenceMultiplier)
    else (t, (1 / 5) * mimeConfidenceMultiplier)

/-- `MimeClassifier.can_classify` (lines 176–186):
`bool(document.mime_type or document.file_extension)`. -/
def mimeCanClassify (d : Document) : Bool :=
  strTruthy d.mime_type || strTruthy d.file_extension

/-! ## ClassifierRegistry (`classifiers/registry.py`) -/

/-- The classifier classes the registry could hold. -/
inductive ClassifierKind where
  | mime
deriving DecidableEq, Repr

/-- `ClassifierRegistry._register_default_classifiers` (lines 24–30): the
default registry registers only the name `mime` (for `MimeClassifier`); the
keyword, table and ML classifiers are never registered. -/
def classifierRegistryDefault : List (String × ClassifierKind) :=
  [("mime", .mime)]

/-- `ClassifierRegistry.create_composite` (lines 75–100): instantiate, in
order, each requested name that resolves in the registry; names with no
registered class are silently dropped. -/
def createCompositeClassifiers (names : List String) : List ClassifierKind :=
  names.filterMap fun n => classifierRegistryDefault.lookup n

/-- The per-document `ClassifierRun` of a registered classifier.
`MimeClassifier.classify` is a pure function of the document's MIME type and
extension and cannot raise, so its outcome is always `some`. -/
def runOfClassifier (c : ClassifierKind) (d : Document) : ClassifierRun :=
  match c with
  | .mime => { can := mimeCanClassify d, outcome := some (mimeClassify d) }

/-- `CompositeClassifier.classify` (default `highest_confidence` strategy) of
a composite built from concrete registered classifiers, for one document. -/
def compositeClassifyOf (cs : List ClassifierKind) (d : Document) :
    DocumentType × ℚ :=
  compositeClassifyHC (cs.map (runOfClassifier · d))

/-! ## FusionStrategy (`strategies/fusion_strategy.py`)

The fusion code consumes per-document extraction results through the
attributes `success`, `confidence` and `data` (duck-typed: every producer in
the extraction pipeline constructs results with exactly these keywords, see
the `...Kwargs` definitions above).  `FusionResult α` is that attribute view,
with `α` the shape of `data` relevant to the merge at hand. -/

/-- The attribute view of a per-document extraction result as read by the
fusion code (`result.success`, `result.confidence`, `result.data`). -/
structure FusionResult (α : Type) where
  success : Bool
  confidence : ℚ
  data : α
deriving DecidableEq, Repr

/-- One claim dictionary inside a loss-run result's `data['claims']`.
`claim_number` is `none` when the key is absent; the fusion code inspects
only `claim.get('claim_number')`, the amount fields ride along. -/
structure LossClaim where
  claim_number : Option String
  paid : Option ℚ
  incurred : Option ℚ
deriving DecidableEq, Repr

/-- `claim.get('claim_number')` followed by Python truthiness: `none` when the
key is absent or the value is the empty string. -/
def claimNumberKey (c : LossClaim) : Option String :=
  match c.claim_number with
  | some s => if s = "" then none else some s
  | none => none

/-- `data['totals']` of a loss-run result. -/
structure LossRunTotals where
  total_paid : ℚ
  total_incurred : ℚ
deriving DecidableEq, Repr

/-- `data` of a loss-run extraction result, restricted to the keys
`_merge_loss_runs` reads (`claims` and `totals`, with the `.get` defaults). -/
structure LossRunData where
  claims : List LossClaim
  totals : LossRunTotals
deriving DecidableEq, Repr

/-- The loop of `FusionStrategy._deduplicate_claims` (lines 515–529), with
`seen` the set of claim numbers already kept: a claim with a truthy unseen
claim number is kept and its number recorded, a claim with a truthy seen
number is dropped, a claim with no (or a falsy) claim number is always
kept. -/
def dedupClaimsGo (seen : List String) : List LossClaim → List LossClaim
  | [] => []
  | c :: rest =>
    match claimNumberKey c with
    | some n =>
      if seen.contains n then dedupClaimsGo seen rest
      else c :: dedupClaimsGo (n :: seen) rest
    | none => c :: dedupClaimsGo seen rest

/-- `FusionStrategy._deduplicate_claims` (lines 515–529). -/
def dedupClaims (claims : List LossClaim) : List LossClaim :=
  dedupClaimsGo [] claims

/-- The merged `claims_history` section built by `_merge_loss_runs`
(source-tracking metadata omitted). -/
structure MergedLossRuns where
  claims : List LossClaim
  claim_count : ℕ
  totals : LossRunTotals
deriving DecidableEq, Repr

/-- The accumulation loop of `FusionStrategy._merge_loss_runs`
(lines 291–307) over the organized pairs `organized[DocumentType.LOSS_RUN]`:
for every *successful* result, extend `all_claims` with its claims and add its
own reported `totals` fields into the running totals.  (When no loss-run
document exists the key is absent and the Python function returns `None`;
this embedding covers the present-key case.) -/
def mergeLossRunsAcc (pairs : List (Document × FusionResult LossRunData)) :
    List LossClaim × ℚ × ℚ :=
  pairs.foldl
    (fun acc p =>
      if p.2.success then
        (acc.1 ++ p.2.data.claims,
         acc.2.1 + p.2.data.totals.total_paid,
         acc.2.2 + p.2.data.totals.total_incurred)
      else acc)
    ([], 0, 0)

/-- The merged section assembled at the end of `_merge_loss_runs`
(lines 309–319): deduplicate the accumulated claims and report the
accumulated totals. -/
def mergeLossRuns (pairs : List (Document × FusionResult LossRunData)) :
    MergedLossRuns :=
  let acc := mergeLossRunsAcc pairs
  let uniqueClaims := dedupClaims acc.1
  { claims := uniqueClaims
    claim_count := uniqueClaims.length
    totals := { total_paid := acc.2.1, total_incurred := acc.2.2 } }

/-- `FusionStrategy._calculate_fusion_confidence` (lines 677–706): 0 with no
results or no successful result; otherwise the mean confidence of the
successful results plus a bonus `min(0.1, 0.02 × k)` for `k` distinct
successfully-extracted document types, the sum capped at 1. -/
def calculateFusionConfidence {α : Type}
    (results : List (Document × FusionResult α)) : ℚ :=
  if results.isEmpty then 0
  else
    let successful := (results.filter fun p => p.2.success).map
      fun p => p.2.confidence
    if successful.isEmpty then 0
    else
      let avgConfidence := successful.sum / (successful.length : ℚ)
      let uniqueTypes := ((results.filter fun p => p.2.success).map
        fun p => p.1.document_type).dedup.length
      min 1 (avgConfidence + min (1 / 10) ((uniqueTypes : ℚ) * (1 / 50)))

/-- The spec's description of the combined confidence, for comparison with
`calculateFusionConfidence`: average confidence of the successful extractions
plus a capped bonus proportional to the count `k` of distinct
successfully-extracted document types, capped overall at 1. -/
def specCombinedConfidence (avgConfidence : ℚ) (k : ℕ) : ℚ :=
  min 1 (avgConfidence + min (1 / 10) ((k : ℚ) * (1 / 50)))

/-- `DocumentGroup` (`fusion_strategy.py` lines 26–55), restricted to the
fields `fuse` reads. -/
structure DocumentGroup where
  group_id : String
  documents : List Document
deriving Repr

/-- `FusionStrategy._extract_all` (lines 162–179): extract every document of
the group in order.  The per-document `ExtractorFactory.extract(document)`
call is the parameter `ex` (`.error` models a raised exception).  When it
raises, the `except` handler (lines 170–177) constructs
`ExtractionResult(success=False, data=..., errors=[...])` — a keyword set the
dataclass rejects, so the handler itself raises `TypeError`, which escapes
`_extract_all` (the second branch of the inner match is unreachable because
`mkExtractionResult fusionFailureKwargs` never succeeds). -/
def extractAll {α : Type} (ex : Document → Except PyErr (FusionResult α)) :
    List Document → Except PyErr (List (Document × FusionResult α))
  | [] => .ok []
  | d :: ds =>
    match ex d with
    | .ok r =>
      match extractAll ex ds with
      | .ok rest => .ok ((d, r) :: rest)
      | .error e => .error e
    | .error _ =>
      match mkExtractionResult fusionFailureKwargs with
      | .error e => .error e
      | .ok _ => .error .typeError

/-- `FusionStrategy.fuse` (lines 104–160): extract all documents; with no
individual result, construct and return the group-level failure
`ExtractionResult(success=False, data={}, errors=[...])` (lines 119–123);
otherwise merge, cross-validate, compute the fusion confidence and construct
the success `ExtractionResult(success=True, ...)` (lines 148–153).  Every
construction goes through `mkExtractionResult` with the keyword set of the
corresponding source line, because the dataclass decides whether the call
succeeds; the value of a successful construction is represented by its
keyword set.  The surrounding `try`/`except` (lines 114, 155–160) converts an
exception from the body into the handler's own
`ExtractionResult(success=False, ...)` construction.  The per-type merge and
cross-validation steps are abstracted as `mergeAndValidate` (their results
feed only the constructed dictionary); the fusion confidence is computed by
`calculateFusionConfidence` as at line 146. -/
def fuse {α γ : Type} (ex : Document → Except PyErr (FusionResult α))
    (mergeAndValidate : List (Document × FusionResult α) → γ × List String)
    (g : DocumentGroup) : Except PyErr (List String) :=
  pyTry
    (match extractAll ex g.documents with
     | .error e => .error e
     | .ok individual =>
       if individual.isEmpty then mkExtractionResult fusionFailureKwargs
       else
         let _merged := mergeAndValidate individual
         let _confidence := calculateFusionConfidence individual
         mkExtractionResult fusionSuccessKwargs)
    (fun _ => mkExtractionResult fusionFailureKwargs)

/-! ## Concrete example inputs used by witnesses and counterexamples -/

/-- A loss-run PDF document (first of the two-document scenario). -/
def lossDocA : Document :=
  { file_path := "loss_run_a.pdf", file_name := "loss_run_a.pdf"
    mime_type := some "application/pdf", file_extension := some ".pdf"
    document_type := .loss_run, raw_text := "loss run", tables := []
    imageCount := 0 }

/-- A loss-run PDF document (second of the two-document scenario). -/
def lossDocB : Document :=
  { file_path := "loss_run_b.pdf", file_name := "loss_run_b.pdf"
    mime_type := some "application/pdf", file_extension := some ".pdf"
    document_type := .loss_run, raw_text := "loss run", tables := []
    imageCount := 0 }

/-- The claim with claim_number "A1" and paid 100 of the first document. -/
def claimA1first : LossClaim :=
  { claim_number := some "A1", paid := some 100, incurred := none }

/-- The claim with claim_number "A1" and paid 150 of the second document. -/
def claimA1second : LossClaim :=
  { claim_number := some "A1", paid := some 150, incurred := none }

/-- The organized loss-run pairs of the two-document scenario: each document
extracted successfully to a single claim, each result reporting its own
totals. -/
def lossPairsExample : List (Document × FusionResult LossRunData) :=
  [(lossDocA,
    { success := true, confidence := 4 / 5
      data := { claims := [claimA1first]
                totals := { total_paid := 100, total_incurred := 0 } } }),
   (lossDocB,
    { success := true, confidence := 4 / 5
      data := { claims := [claimA1second]
                totals := { total_paid := 150, total_incurred := 0 } } })]

/-- A generic text document used to instantiate universally quantified
theorems. -/
def plainTextDoc : Document :=
  { file_path := "notes.txt", file_name := "notes.txt"
    mime_type := some "text/plain", file_extension := some ".txt"
    document_type := .generic, raw_text := "hello world", tables := []
    imageCount := 0 }

/-- A document classified as ACORD 126 (the failing input of the registry
dispatch). -/
def acord126Doc : Document :=
  { file_path := "acord126.pdf", file_name := "acord126.pdf"
    mime_type := some "application/pdf", file_extension := some ".pdf"
    document_type := .acord_126, raw_text := "acord 126", tables := []
    imageCount := 0 }

/-- A matcher under which no keyword pattern matches. -/
def matchNothing : String → Bool := fun _ => false

/-- A matcher under which every keyword pattern matches. -/
def matchEverything : String → Bool := fun _ => true

/-- Classifier behaviours demonstrating an exact confidence tie (the first
two), an ineligible classifier (third) and a raising classifier (fourth). -/
def demoRuns : List ClassifierRun :=
  [{ can := true, outcome := some (.acord_126, 1 / 2) },
   { can := true, outcome := some (.loss_run, 1 / 2) },
   { can := false, outcome := some (.sov, 9 / 10) },
   { can := true, outcome := none }]

/-- A per-document extraction outcome that succeeds (hypothetically) with a
unit-data result, for instantiating `fuse`. -/
def dummyExtractOk : Document → Except PyErr (FusionResult Unit) :=
  fun _ => .ok { success := true, confidence := 1, data := () }

/-- A per-document extraction outcome that raises `TypeError` — what
`ExtractorFactory.extract` actually does on every document (its exception
handler's `ExtractionResult(success=False, ...)` construction is invalid). -/
def dummyExtractRaises : Document → Except PyErr (FusionResult Unit) :=
  fun _ => .error .typeError

/-- A merge stub for instantiating `fuse`. -/
def dummyMerge : List (Document × FusionResult Unit) → Unit × List String :=
  fun _ => ((), [])

/-- A `DocumentGroup` with zero documents. -/
def emptyGroup : DocumentGroup :=
  { group_id := "submission_empty", documents := [] }

/-- Fusion results over unit data: two successes of distinct types and one
failure, for instantiating the fusion-confidence theorem. -/
def fusionDemoResults : List (Document × FusionResult Unit) :=
  [(lossDocA, { success := true, confidence := 4 / 5, data := () }),
   (acord126Doc, { success := true, confidence := 3 / 5, data := () }),
   (plainTextDoc, { success := false, confidence := 0, data := () })]

/-! ## Helper lemmas -/

/-- A computation of the shape `if c then pure x else pure y` never raises. -/
theorem exists_ok_of_pure_ite {α : Type} (c : Bool) (x y : α) :
    ∃ e, (if c = true then (pure x : Except PyErr α) else pure y) = .ok e := by
  cases c
  · exact ⟨y, rfl⟩
  · exact ⟨x, rfl⟩

/-- `genericExtractMetadata` raises: the `document.file_size` dereference
fails because `Document.__init__` never sets that attribute. -/
theorem genericExtractMetadata_raises :
    genericExtractMetadata = .error .attributeError := rfl

/-- `genericExtractImages` raises on a document carrying at least one image:
`ImageData` has no `page` attribute. -/
theorem genericExtractImages_raises (d : Document) (h : d.imageCount ≠ 0) :
    genericExtractImages d = .error .attributeError := by
  unfold genericExtractImages
  rw [if_neg h]
  rfl

/-- The body of `GenericExtractor.extract` always raises `AttributeError`. -/
theorem genericExtractBody_raises (d : Document) :
    genericExtractBody d = .error .attributeError := by
  by_cases h : d.imageCount = 0
  · have h1 : genericExtractImages d = .ok () := by
      unfold genericExtractImages
      rw [if_pos h]
    unfold genericExtractBody
    rw [h1]
    rfl
  · unfold genericExtractBody
    rw [genericExtractImages_raises d h]
    rfl

/-! ## C1 -/

/-- C1: The claim that every `ExtractionResult` produced by an extractor, the
`ExtractorFactory`, the pipeline or fusion carries a boolean `success` flag
(with `success=false` implying non-empty `errors`) fails at the class itself:
the `ExtractionResult` dataclass declares no `success`, `data` or `errors`
field, so every construction site of those producers — each listed keyword
set below is taken from one of them — raises `TypeError` instead of producing
a result that carries `success`. -/
theorem extractionResult_success_flag_missing :
    ((extractionResultDataclassFields.map Prod.fst).contains "success") = false ∧
    ((extractionResultDataclassFields.map Prod.fst).contains "data") = false ∧
    ((extractionResultDataclassFields.map Prod.fst).contains "errors") = false ∧
    mkExtractionResult factoryFailureKwargs = .error .typeError ∧
    mkExtractionResult genericSuccessKwargs = .error .typeError ∧
    mkExtractionResult genericFailureKwargs = .error .typeError ∧
    mkExtractionResult fusionSuccessKwargs = .error .typeError ∧
    mkExtractionResult fusionFailureKwargs = .error .typeError ∧
    mkExtractionResult pipelineFailureKwargs = .error .typeError :=
  ⟨rfl, rfl, rfl, rfl, rfl, rfl, rfl, rfl, rfl⟩

/-! ## C2 -/

/-- C2: The claim that `GenericExtractor.extract` never fails and always
returns the document's text, tables, images, metadata and statistics is
refuted by evaluation: `Document` owns no `file_size` attribute and
`ImageData` owns no `page` attribute, so the `try` body raises
`AttributeError` for every document, and the `except` handler's own
`ExtractionResult(success=..., data=..., errors=...)` call raises `TypeError`
past the extractor's boundary. -/
theorem genericExtractor_extract_always_raises :
    (∀ d : Document, genericExtract d = .error .typeError) ∧
    (documentAttrs.contains "file_size") = false ∧
    (imageDataAttrs.contains "page") = false ∧
    genericExtractMetadata = .error .attributeError := by
  refine ⟨fun d => ?_, rfl, rfl, genericExtractMetadata_raises⟩
  unfold genericExtract
  rw [genericExtractBody_raises d]
  rfl

/-! ## C3 -/

/-- C3: The claim that `get_extractor_for_document` returns an extractor for
every document whatever its type fails for `ACORD_126`: the registered
`Acord126Extractor.can_extract` expects a path string, so
`os.path.exists(document)` raises `TypeError` out of the registry call.  For
every other document type the call does return an extractor. -/
theorem getExtractorForDocument_dispatch :
    (∀ d : Document, d.document_type = .acord_126 →
      getExtractorForDocument d = .error .typeError) ∧
    (∀ d : Document, d.document_type ≠ .acord_126 →
      ∃ e, getExtractorForDocument d = .ok e) := by
  constructor
  · intro d h
    unfold getExtractorForDocument
    rw [h]
    rfl
  · intro d h
    unfold getExtractorForDocument
    cases hdt : d.document_type
    case acord_126 => exact absurd hdt h
    all_goals first
      | exact ⟨.generic, rfl⟩
      | exact exists_ok_of_pure_ite _ _ _

/-- Witness for C3 at concrete documents: an ACORD-126 document makes the
registry raise, a generic document resolves to an extractor. -/
theorem getExtractorForDocument_dispatch_witness :
    getExtractorForDocument acord126Doc = .error .typeError ∧
    ∃ e, getExtractorForDocument plainTextDoc = .ok e :=
  ⟨getExtractorForDocument_dispatch.1 acord126Doc rfl,
   getExtractorForDocument_dispatch.2 plainTextDoc (by decide)⟩

/-! ## C4 -/

/-- C4: For every document text (abstracted as a matcher on the fixed pattern
strings) and every document type with keyword patterns, zero required-pattern
matches force a score of exactly 0 whatever the other tiers match; otherwise
the score is `required×0.40 + strong×0.10 + weak×0.03`; and the confidence
`classify` returns never exceeds 1. -/
theorem keywordClassifier_gate_and_formula :
    (∀ (m : String → Bool), ∀ dt ∈ keywordPatternTypes,
      (hitCount m (keywordPatterns dt).required = 0 →
        scoreDocumentType m dt = 0) ∧
      (hitCount m (keywordPatterns dt).required ≠ 0 →
        scoreDocumentType m dt =
          hitCount m (keywordPatterns dt).required * (2 / 5) +
          hitCount m (keywordPatterns dt).strong * (1 / 10) +
          hitCount m (keywordPatterns dt).weak * (3 / 100))) ∧
    (∀ (d : Document) (m : String → Bool), (keywordClassify d m).2 ≤ 1) := by
  constructor
  · intro m dt hdt
    have hreq : (keywordPatterns dt).required ≠ [] := by
      fin_cases hdt <;> simp [keywordPatterns]
    constructor
    · intro h
      simp only [scoreDocumentType]
      rw [if_pos ⟨hreq, h⟩]
    · intro h
      simp only [scoreDocumentType]
      rw [if_neg (fun hc => h hc.2)]
      rfl
  · intro d m
    unfold keywordClassify
    split
    · exact zero_le_one
    · cases hsc : keywordScores m with
      | nil => exact zero_le_one
      | cons s rest => exact min_le_left _ _

/-- Witness for C4: under a matcher matching nothing the ACORD 126 score is
0; under a matcher matching everything it equals the announced weighted sum;
and the classified confidence of a concrete document stays at most 1. -/
theorem keywordClassifier_gate_and_formula_witness :
    scoreDocumentType matchNothing .acord_126 = 0 ∧
    scoreDocumentType matchEverything .acord_126 =
      2 * (2 / 5) + 5 * (1 / 10) + 4 * (3 / 100) ∧
    (keywordClassify plainTextDoc matchEverything).2 ≤ 1 := by
  refine ⟨(keywordClassifier_gate_and_formula.1 matchNothing .acord_126
      (by decide)).1 (by decide), ?_,
    keywordClassifier_gate_and_formula.2 plainTextDoc matchEverything⟩
  have h := (keywordClassifier_gate_and_formula.1 matchEverything .acord_126
    (by decide)).2 (by decide)
  rw [h]
  norm_num [hitCount, keywordPatterns, matchEverything]

/-! ## C5 -/

/-- Left fold of `max`, the maximum of `x :: xs`. -/
def foldlMax (x : ℚ) (xs : List ℚ) : ℚ := xs.foldl max x

/-- The seed is bounded by the fold of `max`. -/
theorem le_foldlMax (x : ℚ) (xs : List ℚ) : x ≤ foldlMax x xs := by
  induction xs generalizing x with
  | nil => exact le_refl x
  | cons y ys ih => exact le_trans (le_max_left x y) (ih (max x y))

/-- Every listed value is bounded by the fold of `max`. -/
theorem mem_le_foldlMax (x : ℚ) (xs : List ℚ) (y : ℚ) (hy : y ∈ xs) :
    y ≤ foldlMax x xs := by
  induction xs generalizing x with
  | nil => cases hy
  | cons z zs ih =>
    rcases List.mem_cons.mp hy with h | h
    · subst h
      exact le_trans (le_max_right x y) (le_foldlMax (max x y) zs)
    · exact ih (max x z) h

/-- The key of Python's running best after one comparison step. -/
theorem key_ite_max {α : Type} (key : α → ℚ) (b x : α) :
    key (if key x > key b then x else b) = max (key b) (key x) := by
  by_cases h : key x > key b
  · rw [if_pos h, max_eq_right (le_of_lt h)]
  · rw [if_neg h, max_eq_left (le_of_not_lt h)]

/-- `pyMaxBy` attains the maximum key of the candidate list. -/
theorem pyMaxBy_key {α : Type} (key : α → ℚ) (b : α) (l : List α) :
    key (pyMaxBy key b l) = foldlMax (key b) (l.map key) := by
  induction l generalizing b with
  | nil => rfl
  | cons x xs ih =>
    show key (pyMaxBy key (if key x > key b then x else b) xs) =
      foldlMax (max (key b) (key x)) (xs.map key)
    rw [ih, key_ite_max key b x]

/-- `pyMaxBy` returns the first candidate attaining the maximal key: Python's
`max(results, key=...)` keeps the earliest item on exact key ties. -/
theorem pyMaxBy_find {α : Type} (key : α → ℚ) (b : α) (l : List α) :
    (b :: l).find? (fun y => decide (key y = foldlMax (key b) (l.map key)))
      = some (pyMaxBy key b l) := by
  induction l generalizing b with
  | nil => simp [pyMaxBy, foldlMax, List.find?]
  | cons x xs ih =>
    have hM : foldlMax (key b) ((x :: xs).map key) =
        foldlMax (max (key b) (key x)) (xs.map key) := rfl
    have hbM : key b ≤ foldlMax (max (key b) (key x)) (xs.map key) :=
      le_trans (le_max_left _ _) (le_foldlMax _ _)
    have hxM : key x ≤ foldlMax (max (key b) (key x)) (xs.map key) :=
      le_trans (le_max_right _ _) (le_foldlMax _ _)
    have hstep : pyMaxBy key b (x :: xs) =
        pyMaxBy key (if key x > key b then x else b) xs := rfl
    have ihb := ih (if key x > key b then x else b)
    rw [key_ite_max key b x] at ihb
    rw [hM, hstep]
    by_cases h : key x > key b
    · rw [if_pos h] at ihb ⊢
      have hbne : ¬(key b = foldlMax (max (key b) (key x)) (xs.map key)) :=
        fun he => absurd (le_trans hxM (le_of_eq he.symm)) (not_le.mpr h)
      rw [List.find?_cons_of_neg _ (by simpa using hbne)]
      exact ihb
    · rw [if_neg h] at ihb ⊢
      by_cases hb : key b = foldlMax (max (key b) (key x)) (xs.map key)
      · rw [List.find?_cons_of_pos _ (by simpa using hb)]
        rw [List.find?_cons_of_pos _ (by simpa using hb)] at ihb
        exact ihb
      · have hxne : ¬(key x = foldlMax (max (key b) (key x)) (xs.map key)) :=
          fun he => hb (le_antisymm hbM (he ▸ le_of_not_lt h))
        rw [List.find?_cons_of_neg _ (by simpa using hb),
          List.find?_cons_of_neg _ (by simpa using hxne)]
        rw [List.find?_cons_of_neg _ (by simpa using hb)] at ihb
        exact ihb

/-- C5: `CompositeClassifier.classify` under `highest_confidence` returns
`(UNKNOWN, 0.0)` when no classifier could run; otherwise its confidence is
the maximum of the eligible votes' confidences and the returned vote is the
first (earliest-listed) vote attaining that maximum — exact ties go to the
earlier classifier. Throwing or non-eligible classifiers only disappear from
`eligibleResults`; they never abort the classification. -/
theorem compositeClassifier_highest_confidence :
    (∀ runs : List ClassifierRun, eligibleResults runs = [] →
      compositeClassifyHC runs = (.unknown, 0)) ∧
    (∀ (runs : List ClassifierRun) (r : DocumentType × ℚ)
      (rest : List (DocumentType × ℚ)),
      eligibleResults runs = r :: rest →
      (compositeClassifyHC runs).2 = foldlMax r.2 (rest.map fun p => p.2) ∧
      (r :: rest).find? (fun p => decide (p.2 = foldlMax r.2 (rest.map fun p => p.2)))
        = some (compositeClassifyHC runs)) := by
  constructor
  · intro runs h
    unfold compositeClassifyHC
    rw [h]
  · intro runs r rest h
    unfold compositeClassifyHC
    rw [h]
    exact ⟨pyMaxBy_key _ r rest, pyMaxBy_find _ r rest⟩

/-- Witness for C5 on `demoRuns`: two eligible classifiers tie at confidence
1/2 (a third cannot classify, a fourth raises); the composite returns the
maximum confidence and the find-first characterization holds. -/
theorem compositeClassifier_highest_confidence_witness :
    (compositeClassifyHC demoRuns).2 =
      foldlMax (DocumentType.acord_126, (1 : ℚ) / 2).2
        ([((DocumentType.loss_run : DocumentType), (1 : ℚ) / 2)].map fun p => p.2) ∧
    ([((DocumentType.acord_126 : DocumentType), (1 : ℚ) / 2),
      (DocumentType.loss_run, 1 / 2)].find?
      (fun p => decide (p.2 = foldlMax (DocumentType.acord_126, (1 : ℚ) / 2).2
        ([((DocumentType.loss_run : DocumentType), (1 : ℚ) / 2)].map fun p => p.2))))
      = some (compositeClassifyHC demoRuns) :=
  compositeClassifier_highest_confidence.2 demoRuns
    (.acord_126, 1 / 2) [(.loss_run, 1 / 2)] rfl

/-! ## C6 and C7 -/

/-- The accumulation loop, started from an arbitrary accumulator, appends the
successful results' claims and adds their reported totals. -/
theorem mergeLossRunsAcc_go (pairs : List (Document × FusionResult LossRunData))
    (init : List LossClaim × ℚ × ℚ) :
    pairs.foldl
      (fun acc p =>
        if p.2.success then
          (acc.1 ++ p.2.data.claims,
           acc.2.1 + p.2.data.totals.total_paid,
           acc.2.2 + p.2.data.totals.total_incurred)
        else acc)
      init =
      (init.1 ++ (pairs.filter fun p => p.2.success).flatMap
        (fun p => p.2.data.claims),
       init.2.1 + ((pairs.filter fun p => p.2.success).map
        fun p => p.2.data.totals.total_paid).sum,
       init.2.2 + ((pairs.filter fun p => p.2.success).map
        fun p => p.2.data.totals.total_incurred).sum) := by
  induction pairs generalizing init with
  | nil => simp
  | cons p rest ih =>
    simp only [List.foldl_cons]
    by_cases hp : p.2.success
    · rw [if_pos hp, ih, List.filter_cons]
      simp only [hp, if_true, List.flatMap_cons, List.map_cons, List.sum_cons]
      exact congrArg₂ Prod.mk (List.append_assoc _ _ _)
        (congrArg₂ Prod.mk (add_assoc _ _ _) (add_assoc _ _ _))
    · rw [if_neg hp, ih, List.filter_cons]
      simp [hp]

/-- The accumulator of `_merge_loss_runs`: concatenation of the successful
results' claims, and the sums of their reported totals. -/
theorem mergeLossRunsAcc_spec (pairs : List (Document × FusionResult LossRunData)) :
    mergeLossRunsAcc pairs =
      ((pairs.filter fun p => p.2.success).flatMap (fun p => p.2.data.claims),
       ((pairs.filter fun p => p.2.success).map
        fun p => p.2.data.totals.total_paid).sum,
       ((pairs.filter fun p => p.2.success).map
        fun p => p.2.data.totals.total_incurred).sum) := by
  unfold mergeLossRunsAcc
  rw [mergeLossRunsAcc_go]
  simp

/-- Deduplication never drops a claim whose claim number is absent or falsy:
the unnumbered sublist is preserved exactly. -/
theorem dedupClaimsGo_filter_none (seen : List String) (cs : List LossClaim) :
    (dedupClaimsGo seen cs).filter (fun c => decide (claimNumberKey c = none)) =
      cs.filter (fun c => decide (claimNumberKey c = none)) := by
  induction cs generalizing seen with
  | nil => rfl
  | cons c rest ih =>
    cases hck : claimNumberKey c with
    | none =>
      simp only [dedupClaimsGo, hck]
      simp [List.filter_cons, hck, ih seen]
    | some n =>
      simp only [dedupClaimsGo, hck]
      by_cases hn : seen.contains n
      · rw [if_pos hn]
        simp [List.filter_cons, hck, ih seen]
      · rw [if_neg hn]
        simp [List.filter_cons, hck, ih (n :: seen)]

/-- Deduplication keeps exactly the first occurrence of every claim number:
the sublist with a given number equals the first element of the input with
that number (empty if the number was already seen). -/
theorem dedupClaimsGo_filter_some (seen : List String) (cs : List LossClaim)
    (n : String) :
    (dedupClaimsGo seen cs).filter (fun c => decide (claimNumberKey c = some n)) =
      if seen.contains n then []
      else (cs.filter (fun c => decide (claimNumberKey c = some n))).take 1 := by
  induction cs generalizing seen with
  | nil =>
    simp only [dedupClaimsGo, List.filter_nil, List.take_nil]
    split <;> rfl
  | cons c rest ih =>
    cases hck : claimNumberKey c with
    | none =>
      have hpc : (decide (claimNumberKey c = some n)) = false := by simp [hck]
      simp only [dedupClaimsGo, hck, List.filter_cons, hpc, Bool.false_eq_true,
        if_false]
      exact ih seen
    | some m =>
      by_cases hmn : m = n
      · subst hmn
        have hpc : (decide (claimNumberKey c = some m)) = true := by simp [hck]
        simp only [dedupClaimsGo, hck]
        by_cases hn : seen.contains m
        · rw [if_pos hn, ih seen, if_pos hn, if_pos hn]
        · rw [if_neg hn]
          simp only [List.filter_cons, hpc, if_true]
          rw [ih (m :: seen)]
          have hmm : ((m :: seen).contains m) = true := by
            simp [List.contains_cons]
          rw [if_pos hmm, if_neg hn]
          simp [List.take]
      · have hpc : (decide (claimNumberKey c = some n)) = false := by
          simp [hck, hmn]
        have hnm : (n == m) = false :=
          beq_eq_false_iff_ne.mpr fun h => hmn h.symm
        simp only [dedupClaimsGo, hck]
        by_cases hn' : seen.contains m
        · rw [if_pos hn', ih seen]
          simp only [List.filter_cons, hpc, Bool.false_eq_true, if_false]
        · rw [if_neg hn']
          simp only [List.filter_cons, hpc, Bool.false_eq_true, if_false]
          rw [ih (m :: seen)]
          have hcc : ((m :: seen).contains n) = seen.contains n := by
            simp only [List.contains_cons, hnm, Bool.false_or]
          rw [hcc]

/-- C6: The LOSS_RUN merge concatenates the claims of all successful loss-run
results and deduplicates them keeping exactly the first occurrence of every
claim number, never dropping a claim that lacks one; on the two-document
scenario with claims numbered "A1" and paid 100 resp. 150 it keeps exactly
the first claim. -/
theorem lossRun_merge_dedup_first_wins :
    (∀ pairs : List (Document × FusionResult LossRunData),
      (mergeLossRuns pairs).claims =
        dedupClaims ((pairs.filter fun p => p.2.success).flatMap
          fun p => p.2.data.claims)) ∧
    (∀ cs : List LossClaim,
      (dedupClaims cs).filter (fun c => decide (claimNumberKey c = none)) =
        cs.filter (fun c => decide (claimNumberKey c = none))) ∧
    (∀ (cs : List LossClaim) (n : String),
      (dedupClaims cs).filter (fun c => decide (claimNumberKey c = some n)) =
        (cs.filter (fun c => decide (claimNumberKey c = some n))).take 1) ∧
    (mergeLossRuns lossPairsExample).claims = [claimA1first] ∧
    (mergeLossRuns lossPairsExample).claim_count = 1 := by
  refine ⟨fun pairs => ?_, fun cs => dedupClaimsGo_filter_none [] cs,
    fun cs n => dedupClaimsGo_filter_some [] cs n, ?_, ?_⟩
  · show (mergeLossRuns pairs).claims = _
    unfold mergeLossRuns
    rw [mergeLossRunsAcc_spec]
  · decide
  · decide

/-- C7 counterexample: in the two-document scenario each result reports its
own total (100 and 150); the merged totals are 250, while the sum of paid
amounts across the surviving (deduplicated) claims is 100 — the merged totals
strictly exceed the sum over surviving claims. -/
theorem lossRun_totals_counterexample :
    (mergeLossRuns lossPairsExample).totals.total_paid = 250 ∧
    ((mergeLossRuns lossPairsExample).claims.map fun c => c.paid.getD 0).sum
      = 100 ∧
    ((mergeLossRuns lossPairsExample).claims.map fun c => c.paid.getD 0).sum
      < (mergeLossRuns lossPairsExample).totals.total_paid := by
  have hclaims : (mergeLossRuns lossPairsExample).claims = [claimA1first] := by
    decide
  have hpaid : (mergeLossRuns lossPairsExample).totals.total_paid = 250 := by
    show (mergeLossRunsAcc lossPairsExample).2.1 = 250
    rw [mergeLossRunsAcc_spec]
    simp [lossPairsExample]
    norm_num
  have hsum :
      ((mergeLossRuns lossPairsExample).claims.map fun c => c.paid.getD 0).sum
        = 100 := by
    rw [hclaims]
    simp [claimA1first]
  refine ⟨hpaid, hsum, ?_⟩
  rw [hpaid, hsum]
  norm_num

/-- C7 (amended): the merged `claims_history` totals are the sums of the
*reported* per-result totals of the successful loss-run results — accumulated
before deduplication, so duplicated claims can be double-counted — not the
sums over the surviving claims. -/
theorem lossRun_totals_are_reported_sums
    (pairs : List (Document × FusionResult LossRunData)) :
    (mergeLossRuns pairs).totals.total_paid =
      ((pairs.filter fun p => p.2.success).map
        fun p => p.2.data.totals.total_paid).sum ∧
    (mergeLossRuns pairs).totals.total_incurred =
      ((pairs.filter fun p => p.2.success).map
        fun p => p.2.data.totals.total_incurred).sum := by
  unfold mergeLossRuns
  rw [mergeLossRunsAcc_spec]
  exact ⟨rfl, rfl⟩

/-! ## C8 -/

/-- C8: The fusion confidence equals the spec's formula — mean confidence of
the successful extractions plus a bonus capped at 0.1, proportional (0.02
each) to the number of distinct successfully-extracted document types, capped
overall at 1 — whenever at least one extraction succeeded; the formula is
monotonically non-decreasing in that count with the mean held fixed; and the
computed confidence never exceeds 1. -/
theorem fusion_confidence_formula :
    (∀ (α : Type) (results : List (Document × FusionResult α)),
      (results.filter fun p => p.2.success) ≠ [] →
      calculateFusionConfidence results =
        specCombinedConfidence
          (((results.filter fun p => p.2.success).map
            fun p => p.2.confidence).sum /
            ((((results.filter fun p => p.2.success).map
              fun p => p.2.confidence).length : ℕ) : ℚ))
          (((results.filter fun p => p.2.success).map
            fun p => p.1.document_type).dedup.length)) ∧
    (∀ (avg : ℚ) (k k' : ℕ), k ≤ k' →
      specCombinedConfidence avg k ≤ specCombinedConfidence avg k') ∧
    (∀ (α : Type) (results : List (Document × FusionResult α)),
      calculateFusionConfidence results ≤ 1) := by
  refine ⟨?_, ?_, ?_⟩
  · intro α results h
    rcases hf : results.filter (fun p => p.2.success) with _ | ⟨q, qs⟩
    · exact absurd hf h
    have hres : results.isEmpty = false := by
      cases results
      · simp [List.filter_nil] at hf
      · rfl
    unfold calculateFusionConfidence specCombinedConfidence
    rw [hf, hres]
    simp only [Bool.false_eq_true, if_false, List.map_cons, List.isEmpty_cons]
  · intro avg k k' hk
    unfold specCombinedConfidence
    have h1 : (k : ℚ) * (1 / 50) ≤ (k' : ℚ) * (1 / 50) :=
      mul_le_mul_of_nonneg_right (by exact_mod_cast hk) (by norm_num)
    exact min_le_min (le_refl 1)
      (add_le_add_left (min_le_min (le_refl _) h1) avg)
  · intro α results
    unfold calculateFusionConfidence
    split
    · exact zero_le_one
    · simp only []
      split
      · exact zero_le_one
      · exact min_le_left _ _

/-- Witness for C8 on three concrete results (two successes of distinct
types, one failure): the formula equality, monotonicity between one and two
distinct types, and the global bound. -/
theorem fusion_confidence_formula_witness :
    calculateFusionConfidence fusionDemoResults =
      specCombinedConfidence
        (((fusionDemoResults.filter fun p => p.2.success).map
          fun p => p.2.confidence).sum /
          ((((fusionDemoResults.filter fun p => p.2.success).map
            fun p => p.2.confidence).length : ℕ) : ℚ))
        (((fusionDemoResults.filter fun p => p.2.success).map
          fun p => p.1.document_type).dedup.length) ∧
    specCombinedConfidence (7 / 10) 1 ≤ specCombinedConfidence (7 / 10) 2 ∧
    calculateFusionConfidence fusionDemoResults ≤ 1 :=
  ⟨fusion_confidence_formula.1 Unit fusionDemoResults (by decide),
   fusion_confidence_formula.2.1 (7 / 10) 1 2 (by norm_num),
   fusion_confidence_formula.2.2 Unit fusionDemoResults⟩

/-! ## C9 -/

/-- C9 counterexample: the empty group is not "one of the only conditions
allowed to raise past the public API", and it is not rejected as a
structural-precondition failure: `fuse` raises the very same `TypeError` on
the empty group, on a one-document group whose extraction raises, and even on
a one-document group whose extraction hypothetically succeeds — the raise
comes from the invalid `ExtractionResult(success=..., ...)` constructions on
every terminal path, not from an empty-group check. -/
theorem fuse_empty_group_counterexample :
    fuse dummyExtractOk dummyMerge emptyGroup = .error .typeError ∧
    fuse dummyExtractRaises dummyMerge
      { group_id := "submission_one", documents := [plainTextDoc] }
      = .error .typeError ∧
    fuse dummyExtractOk dummyMerge
      { group_id := "submission_one", documents := [plainTextDoc] }
      = .error .typeError :=
  ⟨rfl, rfl, rfl⟩

/-- C9 (amended): on a group with zero documents `fuse` attempts no
extraction (`_extract_all` over the empty list performs no call), and control
reaches the group-level failure return of lines 119–123; but that
`ExtractionResult(success=False, data={}, errors=[...])` construction raises
`TypeError` (the dataclass has no such fields), the `except` handler's
identical construction raises the same way, and the `TypeError` escapes
`fuse`.  The same `TypeError` escapes `fuse` for every group and every
per-document outcome, so the raise is not a structural-precondition
rejection, and no failure result — group-level or per-document — is ever
produced. -/
theorem fuse_empty_group_returns_failure :
    (∀ (α γ : Type) (ex : Document → Except PyErr (FusionResult α))
      (mv : List (Document × FusionResult α) → γ × List String)
      (g : DocumentGroup), fuse ex mv g = .error .typeError) ∧
    (∀ (α : Type) (ex : Document → Except PyErr (FusionResult α)),
      extractAll ex ([] : List Document) = .ok []) ∧
    mkExtractionResult fusionFailureKwargs = .error .typeError ∧
    mkExtractionResult fusionSuccessKwargs = .error .typeError := by
  refine ⟨?_, fun α ex => rfl, rfl, rfl⟩
  intro α γ ex mv g
  unfold fuse pyTry
  cases h : extractAll ex g.documents with
  | error e => rfl
  | ok individual => cases individual <;> rfl

/-! ## C10 -/

/-- When both the MIME type and the extension are falsy, there are no
candidate types. -/
theorem getPossibleTypes_falsy (d : Document)
    (h1 : strTruthy d.mime_type = false)
    (h2 : strTruthy d.file_extension = false) :
    getPossibleTypes d = [] := by
  unfold getPossibleTypes
  cases hm : d.mime_type with
  | none =>
    cases he : d.file_extension with
    | none => rfl
    | some e =>
      rw [he] at h2
      have he0 : e = "" := not_not.mp (of_decide_eq_false h2)
      subst he0
      rfl
  | some mt =>
    rw [hm] at h1
    have hm0 : mt = "" := not_not.mp (of_decide_eq_false h1)
    subst hm0
    cases he : d.file_extension with
    | none => rfl
    | some e =>
      rw [he] at h2
      have he0 : e = "" := not_not.mp (of_decide_eq_false h2)
      subst he0
      rfl

/-- C10: The default classifier registry resolves only the name `mime`, so
the composite the pipeline builds from the requested names `mime`, `keyword`,
`table` contains exactly the `MimeClassifier`; consequently, for every
document, the default pipeline's classification decision equals the
`MimeClassifier`'s decision. -/
theorem default_pipeline_composite_is_mime :
    createCompositeClassifiers ["mime", "keyword", "table"] = [.mime] ∧
    ∀ d : Document, compositeClassifyOf [.mime] d = mimeClassify d := by
  refine ⟨rfl, fun d => ?_⟩
  by_cases hc : mimeCanClassify d
  · simp [compositeClassifyOf, compositeClassifyHC, eligibleResults,
      runOfClassifier, List.filterMap, hc, pyMaxBy]
  · have hb : mimeCanClassify d = false := by
      cases hcb : mimeCanClassify d
      · rfl
      · exact absurd hcb hc
    have h1 : strTruthy d.mime_type = false := by
      cases h1b : strTruthy d.mime_type
      · rfl
      · exact absurd (by simp [mimeCanClassify, h1b]) hc
    have h2 : strTruthy d.file_extension = false := by
      cases h2b : strTruthy d.file_extension
      · rfl
      · exact absurd (by simp [mimeCanClassify, h2b]) hc
    have hmc : mimeClassify d = (.unknown, 0) := by
      unfold mimeClassify
      rw [getPossibleTypes_falsy d h1 h2]
    rw [hmc]
    simp [compositeClassifyOf, compositeClassifyHC, eligibleResults,
      runOfClassifier, List.filterMap, hb]

end Fillform
